import Mathlib

/-
Verification development for the multiwalker engine of this repository
(momadm_benchmarks/envs/multiwalker/multiwalker_base.py).

The Python code is shallowly embedded: numpy reward matrices become
`List (List ℚ)`, the Box2D world becomes an abstract `World` record whose
physics tick is an arbitrary function parameter, and gaussian noise draws
are supplied by an arbitrary `rng : ℚ → ℚ → ℚ` (mean, std ↦ draw).

A central point of the embedding is numpy indexing fidelity: for a 2-D
array `rewards` of shape (n, 3), the Python expression `rewards[:][k]`
selects ROW k (agent k's whole reward vector), because `rewards[:]` is a
view of the whole array; it does not select column k.  The embedding
renders `rewards[:][k] = v` as `setFullRow` (row k := [v, v, v]) and
`rewards[i][j] = v` as `setEntry`.
-/

namespace Multiwalker

/-- Physics scale constant of the walker substrate (pettingzoo import). -/
def SCALE : ℚ := 30

/-- Viewport width constant of the walker substrate (pettingzoo import). -/
def VIEWPORT_W : ℚ := 600

/-- Terrain step constant of the walker substrate (pettingzoo import). -/
def TERRAIN_STEP : ℚ := 14 / SCALE

/-- Terrain grass constant of the walker substrate (pettingzoo import). -/
def TERRAIN_GRASS : ℚ := 10

/-- Default terrain length of the walker substrate (pettingzoo import). -/
def TERRAIN_LENGTH : ℚ := 200

/-- Walker separation constant of the walker substrate (pettingzoo import). -/
def WALKER_SEPERATION : ℚ := 10

/-- A walker hull: the Box2D body position (`hull.position.x/.y`). -/
structure Hull where
  x : ℚ
  y : ℚ
deriving DecidableEq

/-- One bipedal walker.  `hull = none` models a destroyed walker
(`walker.hull is None`).  `sensors` is modelled from the spec: the local
sensor reading returned by the external `get_observation`.  `lastAction`
is modelled from the spec: `apply_action` applies torques to the walker's
joints in the external physics body; we record the buffered action. -/
structure Walker where
  hull : Option Hull
  sensors : List ℚ
  lastAction : Option (List ℚ)
deriving DecidableEq

instance : Inhabited Walker := ⟨⟨none, [], none⟩⟩

/-- The physics-owned state read by the engine: walker bodies, the shared
package body, the game-over flag and the per-walker fallen flags (the last
two are set by the external physics substrate). -/
structure World where
  walkers : List Walker
  packageX : ℚ
  packageY : ℚ
  packageAngle : ℚ
  gameOver : Bool
  fallen : List Bool
deriving DecidableEq

/-- The constructor-time configuration surface of `MOMultiWalkerEnv`. -/
structure Config where
  nWalkers : ℕ
  positionNoise : ℚ
  angleNoise : ℚ
  forwardReward : ℚ
  terminateReward : ℚ
  fallReward : ℚ
  sharedReward : Bool
  terminateOnFall : Bool
  removeOnFall : Bool
  terrainLength : ℚ
  maxCycles : ℕ
  renderMode : Option String
deriving DecidableEq

/-- The engine state mutated across a round: world, shaping accumulator,
scroll offset, frame counter and the cached last-round results.
`obsDim` is the (fixed) length of one observation-space vector and
`packageLength` the package body length, both set at setup time. -/
structure EngineState where
  world : World
  prevPackageShaping : ℚ
  scroll : ℚ
  frames : ℕ
  lastRewards : List (List ℚ)
  lastDones : List Bool
  lastObs : List (List ℚ)
  obsDim : ℕ
  packageLength : ℚ
deriving DecidableEq

/-- Embedding of the numpy statement `rewards[:][k] = v` on an (n, 3)
array: `rewards[:]` is a whole-array view, so indexing it with `k` selects
row k, and the scalar broadcasts over that row's 3 entries. -/
def setFullRow (m : List (List ℚ)) (k : ℕ) (v : ℚ) : List (List ℚ) :=
  m.set k (List.replicate 3 v)

/-- Embedding of `rewards[i][j] = v`: one entry of the matrix. -/
def setEntry (m : List (List ℚ)) (i j : ℕ) (v : ℚ) : List (List ℚ) :=
  m.set i ((m.getD i []).set j v)

/-- numpy `.mean()` of a 1-D array. -/
def rowMean (row : List ℚ) : ℚ := row.sum / row.length

/-- `MOMultiWalkerEnv._share_rewards` (multiwalker_base.py lines 102-108):
`shared_rewards[i] = rewards[:][i].mean()` for `i in range(len(rewards))`.
Since `rewards[:][i]` is row i, entry i is the mean of agent i's three
reward channels (not the channel-i mean across agents). -/
def shareRewards (rewards : List (List ℚ)) : List ℚ :=
  (List.range rewards.length).map (fun i => rowMean (rewards.getD i []))

/-- The spec's words for the global reward (spec section 4.2 step 3):
component k is the mean over all agents of channel-k rewards.  Declared
for comparison with `shareRewards`, which is the code's computation. -/
def channelMeans (rewards : List (List ℚ)) : List ℚ :=
  (List.range 3).map (fun k =>
    (rewards.map (fun row => row.getD k 0)).sum / rewards.length)

/-- The reward blending of `step` (multiwalker_base.py lines 141-146):
`local_reward = rewards * local_ratio` and
`last_rewards = global_reward * (1 - local_ratio) + local_reward * local_ratio`,
with `global_reward = _share_rewards rewards` broadcast over rows. -/
def blendRewards (localRatio : ℚ) (rewards : List (List ℚ)) : List (List ℚ) :=
  let g := shareRewards rewards
  let localReward := rewards.map (fun row => row.map (fun v => v * localRatio))
  (List.range localReward.length).map (fun i =>
    (List.range 3).map (fun k =>
      g.getD k 0 * (1 - localRatio) + (localReward.getD i []).getD k 0 * localRatio))

/-- One neighbor slot of the observation (multiwalker_base.py lines
175-184): `[0, 0]` when the index is out of range or the neighbor is
destroyed, otherwise two noisy relative-position readings. -/
def neighborSlot (cfg : Config) (rng : ℚ → ℚ → ℚ) (w : World) (pl : ℚ)
    (j : ℤ) (x y : ℚ) : List ℚ :=
  if j < 0 ∨ j = (cfg.nWalkers : ℤ) then [0, 0]
  else
    match (w.walkers.getD j.toNat default).hull with
    | none => [0, 0]
    | some h =>
        [rng ((h.x - x) / pl) cfg.positionNoise,
         rng ((h.y - y) / pl) cfg.positionNoise]

/-- The observation row of walker i (multiwalker_base.py lines 166-190):
a destroyed walker contributes `np.zeros_like(observation_space[i].low)`;
an alive walker contributes its own sensors followed by the two neighbor
slots and three noisy package readings. -/
def walkerObs (cfg : Config) (rng : ℚ → ℚ → ℚ) (s : EngineState) (i : ℕ) : List ℚ :=
  match (s.world.walkers.getD i default).hull with
  | none => List.replicate s.obsDim 0
  | some h =>
      (s.world.walkers.getD i default).sensors ++
      (neighborSlot cfg rng s.world s.packageLength ((i : ℤ) - 1) h.x h.y ++
       neighborSlot cfg rng s.world s.packageLength ((i : ℤ) + 1) h.x h.y ++
       [rng ((s.world.packageX - h.x) / s.packageLength) cfg.positionNoise,
        rng ((s.world.packageY - h.y) / s.packageLength) cfg.positionNoise,
        rng s.world.packageAngle cfg.angleNoise])

/-- `xpos[i]`: the hull x of walker i, left 0 for a destroyed walker
(multiwalker_base.py lines 159, 171). -/
def xposAt (w : World) (i : ℕ) : ℚ :=
  match (w.walkers.getD i default).hull with
  | none => 0
  | some h => h.x

/-- Accumulator of the fallen-walker loop (multiwalker_base.py lines
200-207): the reward matrix, the done flags and the walker list (which the
loop mutates via `walker._destroy()`). -/
structure FallAcc where
  rewards : List (List ℚ)
  done : List Bool
  walkers : List Walker
deriving DecidableEq

/-- One iteration of the fallen-walker loop (multiwalker_base.py lines
200-207): if walker i is flagged fallen, set `rewards[i][1]` to the fall
reward, destroy it when `remove_on_fall`, overwrite row 1 with the
terminate reward when not `terminate_on_fall` (the numpy row-selection
reading of `rewards[:][1]`), and mark it done. -/
def fallStep (cfg : Config) (fallen : List Bool) (acc : FallAcc) (i : ℕ) : FallAcc :=
  if fallen.getD i false = true then
    let r1 := setEntry acc.rewards i 1 cfg.fallReward
    let ws :=
      if cfg.removeOnFall then
        acc.walkers.set i ({ acc.walkers.getD i default with hull := none })
      else acc.walkers
    let r2 := if cfg.terminateOnFall then r1 else setFullRow r1 1 cfg.terminateReward
    { rewards := r2, done := acc.done.set i true, walkers := ws }
  else acc

/-- Result of `scroll_subroutine`: the mutated engine state plus the
returned reward matrix, done flags and observation list. -/
structure SubResult where
  state : EngineState
  rewards : List (List ℚ)
  done : List Bool
  obs : List (List ℚ)
deriving DecidableEq

/-- `MOMultiWalkerEnv.scroll_subroutine` (multiwalker_base.py lines
154-220).  Observations and `xpos` are assembled first; then
`package_shaping = forward_reward * package.position.x` and
`rewards[:][0] = package_shaping - prev_package_shaping` (row 0 of the
matrix, by numpy view indexing), the shaping accumulator and scroll are
updated, the fallen-walker loop runs, `terminate_on_fall` with any fallen
walker forces all dones, and the package-failure / terrain-end branch
closes the round. -/
def scrollSubroutine (cfg : Config) (rng : ℚ → ℚ → ℚ) (s : EngineState) : SubResult :=
  let w := s.world
  let obs := (List.range cfg.nWalkers).map (walkerObs cfg rng s)
  let xposSum := ((List.range cfg.nWalkers).map (xposAt w)).sum
  let packageShaping := cfg.forwardReward * w.packageX
  let r1 := setFullRow (List.replicate cfg.nWalkers (List.replicate 3 (0 : ℚ))) 0
      (packageShaping - s.prevPackageShaping)
  let scroll := xposSum / (cfg.nWalkers : ℚ) - VIEWPORT_W / SCALE / 5 -
      ((cfg.nWalkers : ℚ) - 1) * WALKER_SEPERATION * TERRAIN_STEP
  let acc0 : FallAcc :=
    { rewards := r1, done := List.replicate cfg.nWalkers false, walkers := w.walkers }
  let acc := (List.range (min w.fallen.length w.walkers.length)).foldl
      (fallStep cfg w.fallen) acc0
  let done2 :=
    if cfg.terminateOnFall = true ∧ w.fallen.any id = true then
      List.replicate cfg.nWalkers true
    else acc.done
  let r2 :=
    if w.gameOver = true ∨ w.packageX < 0 then setFullRow acc.rewards 2 cfg.terminateReward
    else acc.rewards
  let done3 :=
    if w.gameOver = true ∨ w.packageX < 0 then done2
    else if w.packageX > (cfg.terrainLength - TERRAIN_GRASS) * TERRAIN_STEP then
      List.replicate cfg.nWalkers true
    else done2
  let w2 : World := { w with walkers := acc.walkers }
  let s2 : EngineState :=
    { s with world := w2, prevPackageShaping := packageShaping, scroll := scroll }
  { state := s2, rewards := r2, done := done3, obs := obs }

/-- `walker.apply_action` as seen from the engine: the identified walker
buffers the action into its joints (modelled as `lastAction`). -/
def applyAction (w : World) (agentId : ℕ) (action : List ℚ) : World :=
  let wk := { w.walkers.getD agentId default with lastAction := some action }
  { w with walkers := w.walkers.set agentId wk }

/-- The engine state entering `scroll_subroutine` on a round-closing step:
the action has been applied and `world.Step` (the opaque physics tick,
passed as `physTick`) has advanced the world. -/
def roundState (physTick : World → World) (s : EngineState) (action : List ℚ)
    (agentId : ℕ) : EngineState :=
  { s with world := physTick (applyAction s.world agentId action) }

/-- `MOMultiWalkerEnv.step` (multiwalker_base.py lines 129-151).
`action.reshape(4)` requires a size-4 action; the assertion requires the
walker's hull; `apply_action` always runs; on `is_last` the world is
ticked, `scroll_subroutine` runs, and the last-round caches are written
with the blended rewards.  Failures (reshape or assertion) are `none`.
`local_ratio` is an attribute set by the external base initializer and is
passed here as a parameter. -/
def MOMultiWalkerEnv_step (cfg : Config) (localRatio : ℚ) (physTick : World → World)
    (rng : ℚ → ℚ → ℚ) (s : EngineState) (action : List ℚ) (agentId : ℕ)
    (isLast : Bool) : Option EngineState :=
  if action.length = 4 then
    match (s.world.walkers.getD agentId default).hull with
    | none => none
    | some _ =>
        if isLast then
          let res := scrollSubroutine cfg rng (roundState physTick s action agentId)
          some { res.state with
                   lastObs := res.obs,
                   lastRewards := blendRewards localRatio res.rewards,
                   lastDones := res.done,
                   frames := res.state.frames + 1 }
        else some { s with world := applyAction s.world agentId action }
  else none

/-- `MOMultiWalkerEnv.__init__` (multiwalker_base.py lines 56-99): the
call to the base initializer passes hard-coded literals
(`n_walkers=3, position_noise=1e-3, ..., max_cycles=500, render_mode=None`),
not the keyword arguments received, so the resulting configuration is the
same for every choice of arguments. -/
def MOMultiWalkerEnv_init (n_walkers : ℕ)
    (position_noise angle_noise forward_reward terminate_reward fall_reward : ℚ)
    (shared_reward terminate_on_fall remove_on_fall : Bool)
    (terrain_length : ℚ) (max_cycles : ℕ) (render_mode : Option String) : Config :=
  { nWalkers := 3
    positionNoise := 1 / 1000
    angleNoise := 1 / 1000
    forwardReward := 1
    terminateReward := -100
    fallReward := -10
    sharedReward := true
    terminateOnFall := true
    removeOnFall := true
    terrainLength := TERRAIN_LENGTH
    maxCycles := 500
    renderMode := none }

/-- `MOMultiWalkerEnv.reset` (multiwalker_base.py lines 119-126) together
with the base-class reset.  Modelled from the spec: the external base
reset "zeroes frame counter, scroll, previous-shaping value" (spec
section 4.2); the override then zeroes the reward cache. -/
def MOMultiWalkerEnv_reset (cfg : Config) (w : World) (obsDim : ℕ)
    (packageLength : ℚ) : EngineState :=
  { world := w
    prevPackageShaping := 0
    scroll := 0
    frames := 0
    lastRewards := List.replicate cfg.nWalkers (List.replicate 3 0)
    lastDones := List.replicate cfg.nWalkers false
    lastObs := []
    obsDim := obsDim
    packageLength := packageLength }

/-- A whole episode at round granularity: each round applies the opaque
physics tick for that round and then `scroll_subroutine`; the per-round
reward matrices are collected. -/
def runRounds (cfg : Config) (rng : ℚ → ℚ → ℚ) (ticks : List (World → World))
    (s : EngineState) : EngineState × List (List (List ℚ)) :=
  match ticks with
  | [] => (s, [])
  | t :: ts =>
      let res := scrollSubroutine cfg rng { s with world := t s.world }
      let rest := runRounds cfg rng ts res.state
      (rest.1, res.rewards :: rest.2)

/-! ### List helper lemmas -/

lemma getD_set {α : Type} (l : List α) (i j : ℕ) (a d : α) :
    (l.set i a).getD j d = if j = i ∧ i < l.length then a else l.getD j d := by
  induction l generalizing i j with
  | nil => simp
  | cons x t ih =>
      cases i with
      | zero => cases j <;> simp [List.set]
      | succ m =>
          cases j with
          | zero => simp [List.set]
          | succ k =>
              simp only [List.set, List.getD_cons_succ, ih, List.length_cons,
                Nat.add_lt_add_iff_right, Nat.succ.injEq]

lemma getD_replicate {α : Type} (n i : ℕ) (a d : α) (h : i < n) :
    (List.replicate n a).getD i d = a := by
  induction n generalizing i with
  | zero => omega
  | succ m ih =>
      cases i with
      | zero => simp [List.replicate_succ]
      | succ k => simp only [List.replicate_succ]; simpa using ih k (by omega)

lemma getD_map_range {α : Type} (f : ℕ → α) (n i : ℕ) (d : α) (h : i < n) :
    ((List.range n).map f).getD i d = f i := by
  rw [List.getD_eq_getElem?_getD, List.getElem?_map, List.getElem?_range h]
  rfl

lemma getD_map_of_lt {α β : Type} (f : α → β) (l : List α) (i : ℕ) (d : β) (e : α)
    (h : i < l.length) : (l.map f).getD i d = f (l.getD i e) := by
  rw [List.getD_eq_getElem?_getD, List.getElem?_map, List.getElem?_eq_getElem h,
    List.getD_eq_getElem?_getD, List.getElem?_eq_getElem h]
  rfl

lemma getD_map_mul (row : List ℚ) (r : ℚ) (k : ℕ) :
    (row.map (fun v => v * r)).getD k 0 = row.getD k 0 * r := by
  induction row generalizing k with
  | nil => simp
  | cons a t ih =>
      cases k with
      | zero => simp
      | succ k => simp only [List.map_cons, List.getD_cons_succ]; exact ih k

/-! ### Concrete fixtures used by counterexamples and witnesses -/

/-- A deterministic noise oracle: every gaussian draw returns its mean. -/
def rngId : ℚ → ℚ → ℚ := fun m _ => m

/-- The configuration the engine actually runs with (the hard-coded one). -/
def cfg3 : Config :=
  MOMultiWalkerEnv_init 3 (1/1000) (1/1000) 1 (-100) (-10) true true true 200 500 none

/-- An alive walker standing at x. -/
def aliveWalker (x : ℚ) : Walker :=
  { hull := some { x := x, y := 1 }, sensors := [], lastAction := none }

/-- A destroyed walker (`hull is None`). -/
def deadWalker : Walker := { hull := none, sensors := [], lastAction := none }

/-- Three alive walkers, package at x = 2, no failures. -/
def w1 : World :=
  { walkers := [aliveWalker 1, aliveWalker 1, aliveWalker 1], packageX := 2,
    packageY := 1, packageAngle := 0, gameOver := false, fallen := [false, false, false] }

/-- Freshly reset engine state over `w1`. -/
def st1 : EngineState := MOMultiWalkerEnv_reset cfg3 w1 31 (5/2)

/-- World in which the physics substrate has set the game-over flag. -/
def w4 : World := { w1 with gameOver := true, packageX := 1 }

/-- Engine state for the game-over round, shaping accumulator already at
`forward_reward * package.x` so the forward delta is zero. -/
def st4 : EngineState := { st1 with world := w4, prevPackageShaping := 1 }

/-- World in which walker 2 of 3 (index 1) has fallen this round. -/
def w7 : World := { w1 with fallen := [false, true, false] }

/-- Engine state for the fallen-walker round. -/
def st7 : EngineState := { st1 with world := w7 }

/-- World in which walker 0 is already destroyed but its fallen flag is
still asserted by the substrate. -/
def w8 : World :=
  { w1 with walkers := [deadWalker, aliveWalker 1, aliveWalker 1], fallen := [true, false, false] }

/-- Engine state for the destroyed-walker round. -/
def st8 : EngineState := { st1 with world := w8 }

/-- A physics tick that moves the package from its start to x = 2. -/
def tickTo2 : World → World := fun w => { w with packageX := 2 }

/-- Freshly reset engine state with the package starting at x = 1. -/
def st6 : EngineState := MOMultiWalkerEnv_reset cfg3 ({ w1 with packageX := 1 }) 31 (5/2)

/-! ### Claim theorems -/

/-- C1: the claim says the round-closing step writes the forward-progress
value `forward_reward * package.x - prev_shaping` into channel 0 of every
agent's reward vector.  Evaluating `scroll_subroutine` on a clean
three-walker state with forward delta 2 shows the code instead writes
`[2, 2, 2]` into agent 0's entire row (`rewards[:][0]` is row 0, not
column 0) and leaves the channel-0 entries of agents 1 and 2 at 0; the
shaping accumulator is updated as claimed. -/
theorem C1_forward_delta_hits_row_zero :
    (scrollSubroutine cfg3 rngId st1).rewards = [[2,2,2],[0,0,0],[0,0,0]]
    ∧ ((scrollSubroutine cfg3 rngId st1).rewards.getD 1 []).getD 0 0 = 0
    ∧ (scrollSubroutine cfg3 rngId st1).state.prevPackageShaping = 2
    ∧ (0 : ℚ) ≠ 2 := by
  refine ⟨?_, ?_, ?_, by norm_num⟩ <;>
    norm_num [scrollSubroutine, walkerObs, neighborSlot, xposAt, fallStep, setFullRow,
      setEntry, st1, w1, cfg3, MOMultiWalkerEnv_init, MOMultiWalkerEnv_reset, aliveWalker,
      rngId, List.range_succ, List.replicate_succ, List.set, List.getD,
      TERRAIN_GRASS, TERRAIN_STEP, TERRAIN_LENGTH, SCALE]

/-- C2: the claim says `_share_rewards` returns the channel-wise mean
(component k = mean over agents of channel-k rewards).  On the matrix
`[[0,1,0],[0,0,0],[0,0,0]]` the code returns the row means `[1/3, 0, 0]`
(`rewards[:][i]` is row i), while the channel-wise mean of the spec is
`[0, 1/3, 0]`; the two disagree. -/
theorem C2_share_rewards_is_row_mean :
    shareRewards [[0,1,0],[0,0,0],[0,0,0]] = [1/3, 0, 0]
    ∧ channelMeans [[0,1,0],[0,0,0],[0,0,0]] = [0, 1/3, 0]
    ∧ ([1/3, 0, 0] : List ℚ) ≠ [0, 1/3, 0] := by
  refine ⟨?_, ?_, by norm_num⟩ <;>
    norm_num [shareRewards, channelMeans, rowMean, List.range_succ]

/-- C4: the claim says that when the game-over flag is set (or the package
x is negative) the terminate penalty lands in channel 2 of every agent's
reward vector.  Evaluating `scroll_subroutine` on a game-over state with
zero forward delta shows `rewards[:][2]` writes agent 2's entire row
`[-100, -100, -100]` and leaves agent 0's channel-2 entry at 0. -/
theorem C4_terminate_penalty_hits_row_two :
    (scrollSubroutine cfg3 rngId st4).rewards = [[0,0,0],[0,0,0],[-100,-100,-100]]
    ∧ ((scrollSubroutine cfg3 rngId st4).rewards.getD 0 []).getD 2 0 = 0
    ∧ (0 : ℚ) ≠ -100 := by
  refine ⟨?_, ?_, by norm_num⟩ <;>
    norm_num [scrollSubroutine, walkerObs, neighborSlot, xposAt, fallStep, setFullRow,
      setEntry, st4, w4, st1, w1, cfg3, MOMultiWalkerEnv_init, MOMultiWalkerEnv_reset,
      aliveWalker, rngId, List.range_succ, List.replicate_succ, List.set, List.getD,
      TERRAIN_GRASS, TERRAIN_STEP, TERRAIN_LENGTH, SCALE]

/-- C5: the claim says the engine adopts the supplied constructor
arguments.  The initializer forwards hard-coded literals to the base
class, so calling it with entirely different arguments yields exactly the
same configuration as the defaults, and in particular `n_walkers = 5` is
ignored in favor of 3. -/
theorem C5_init_ignores_arguments :
    MOMultiWalkerEnv_init 5 2 2 2 (-50) (-5) false false false 100 123 (some "human")
      = MOMultiWalkerEnv_init 3 (1/1000) (1/1000) 1 (-100) (-10) true true true 200 500 none
    ∧ (MOMultiWalkerEnv_init 5 2 2 2 (-50) (-5) false false false 100 123
        (some "human")).nWalkers = 3
    ∧ (5 : ℕ) ≠ 3 := by
  exact ⟨rfl, rfl, by decide⟩

/-- C6: the claim says every agent's channel-0 episode sum telescopes to
`forward_reward * (package_x_final - package_x_initial)`.  Running one
round from a freshly reset state with the package moving from x = 1 to
x = 2 (so the claimed sum is 1 for every agent), agent 1's channel-0 sum
is 0 (the forward delta only ever lands in agent 0's row) and agent 0's
channel-0 sum is 2 = `forward_reward * package_x_final` (the shaping
accumulator is zeroed at reset, not seeded with the initial position), so
the claim fails for every agent. -/
theorem C6_channel_zero_sum_does_not_telescope :
    st6.world.packageX = 1
    ∧ (runRounds cfg3 rngId [tickTo2] st6).1.world.packageX = 2
    ∧ ((runRounds cfg3 rngId [tickTo2] st6).2.map
        (fun R => (R.getD 1 []).getD 0 0)).sum = 0
    ∧ ((runRounds cfg3 rngId [tickTo2] st6).2.map
        (fun R => (R.getD 0 []).getD 0 0)).sum = 2
    ∧ cfg3.forwardReward * (2 - 1) = 1
    ∧ (0 : ℚ) ≠ 1 ∧ (2 : ℚ) ≠ 1 := by
  refine ⟨?_, ?_, ?_, ?_, ?_, by norm_num, by norm_num⟩ <;>
    norm_num [runRounds, tickTo2, scrollSubroutine, walkerObs, neighborSlot, xposAt,
      fallStep, setFullRow, setEntry, st6, st1, w1, cfg3, MOMultiWalkerEnv_init,
      MOMultiWalkerEnv_reset, aliveWalker, rngId, List.range_succ, List.replicate_succ,
      List.set, List.getD, TERRAIN_GRASS, TERRAIN_STEP, TERRAIN_LENGTH, SCALE]

/-- C7: whenever `terminate_on_fall` is set and at least one walker's
fallen flag is set, `scroll_subroutine` returns done flags that are true
for every one of the `n_walkers` agents, whatever the rest of the state. -/
theorem C7_any_fall_terminates_all (cfg : Config) (rng : ℚ → ℚ → ℚ) (s : EngineState)
    (htof : cfg.terminateOnFall = true) (hfall : s.world.fallen.any id = true) :
    (scrollSubroutine cfg rng s).done = List.replicate cfg.nWalkers true := by
  have hc : cfg.terminateOnFall = true ∧ s.world.fallen.any id = true := ⟨htof, hfall⟩
  dsimp only [scrollSubroutine]
  rw [if_pos hc]
  split
  · rfl
  · split <;> rfl

/-- C7 witness: with three walkers and only walker 2 (index 1) fallen, the
round's done flags are `[true, true, true]`. -/
theorem C7_any_fall_terminates_all_witness :
    (scrollSubroutine cfg3 rngId st7).done = [true, true, true] :=
  (C7_any_fall_terminates_all cfg3 rngId st7 rfl rfl).trans rfl

/-- Entry formula of `blendRewards`: the blended reward for agent i on
channel k is the shared component times `1 - local_ratio` plus the raw
entry times `local_ratio` twice. -/
lemma blendRewards_getD (r : ℚ) (R : List (List ℚ)) (i k : ℕ)
    (hi : i < R.length) (hk : k < 3) :
    ((blendRewards r R).getD i []).getD k 0
      = (shareRewards R).getD k 0 * (1 - r) + (R.getD i []).getD k 0 * r * r := by
  dsimp only [blendRewards]
  rw [getD_map_range _ _ _ _ (by simpa using hi), getD_map_range _ _ _ _ hk,
    getD_map_of_lt _ _ _ _ [] hi, getD_map_mul]

/-- `fallStep` never changes the number of reward rows. -/
lemma fallStep_rewards_length (cfg : Config) (fallen : List Bool) (acc : FallAcc) (i : ℕ) :
    (fallStep cfg fallen acc i).rewards.length = acc.rewards.length := by
  unfold fallStep
  split
  · dsimp only
    split <;> simp [setFullRow, setEntry, List.length_set]
  · rfl

/-- The fallen-walker fold never changes the number of reward rows. -/
lemma foldl_fallStep_length (cfg : Config) (fallen : List Bool) :
    ∀ (js : List ℕ) (acc : FallAcc),
      ((js.foldl (fallStep cfg fallen) acc).rewards).length = acc.rewards.length := by
  intro js
  induction js with
  | nil => intro acc; rfl
  | cons j t ih => intro acc; rw [List.foldl_cons, ih, fallStep_rewards_length]

/-- The reward matrix returned by `scroll_subroutine` always has
`n_walkers` rows. -/
lemma scrollSubroutine_rewards_length (cfg : Config) (rng : ℚ → ℚ → ℚ) (s : EngineState) :
    (scrollSubroutine cfg rng s).rewards.length = cfg.nWalkers := by
  dsimp only [scrollSubroutine]
  split
  · simp [setFullRow, List.length_set, foldl_fallStep_length]
  · simp [setFullRow, List.length_set, foldl_fallStep_length]

/-- C3: on a round-closing step, the cached reward entry of agent i on
channel k equals
`global_k * (1 - local_ratio) + raw_{ik} * local_ratio * local_ratio`,
where `global` is the `_share_rewards` output and `raw` is the matrix
returned by `scroll_subroutine` — `local_ratio` is applied twice to the
local term, exactly as coded. -/
theorem C3_blend_applies_ratio_twice (cfg : Config) (localRatio : ℚ)
    (physTick : World → World) (rng : ℚ → ℚ → ℚ) (s : EngineState) (action : List ℚ)
    (agentId : ℕ) (t : EngineState) (i k : ℕ)
    (hstep : MOMultiWalkerEnv_step cfg localRatio physTick rng s action agentId true = some t)
    (hi : i < cfg.nWalkers) (hk : k < 3) :
    (t.lastRewards.getD i []).getD k 0
      = (shareRewards (scrollSubroutine cfg rng
            (roundState physTick s action agentId)).rewards).getD k 0 * (1 - localRatio)
        + ((scrollSubroutine cfg rng
            (roundState physTick s action agentId)).rewards.getD i []).getD k 0
          * localRatio * localRatio := by
  have hlr : t.lastRewards = blendRewards localRatio
      (scrollSubroutine cfg rng (roundState physTick s action agentId)).rewards := by
    unfold MOMultiWalkerEnv_step at hstep
    split at hstep
    · split at hstep
      · exact absurd hstep (by simp)
      · simp only [if_true] at hstep
        cases hstep
        rfl
    · exact absurd hstep (by simp)
  rw [hlr]
  exact blendRewards_getD localRatio _ i k
    (by rw [scrollSubroutine_rewards_length]; exact hi) hk

/-- The round-closing step of the C3 witness, evaluated on the clean
three-walker state. -/
def stepW : EngineState :=
  (MOMultiWalkerEnv_step cfg3 (3/10) id rngId st1 [0,0,0,0] 0 true).getD st1

/-- C3 witness: the blend formula instantiated at `local_ratio = 3/10`,
agent 0, channel 0, on a concrete successful round-closing step. -/
theorem C3_blend_applies_ratio_twice_witness :
    (stepW.lastRewards.getD 0 []).getD 0 0
      = (shareRewards (scrollSubroutine cfg3 rngId
            (roundState id st1 [0,0,0,0] 0)).rewards).getD 0 0 * (1 - 3/10)
        + ((scrollSubroutine cfg3 rngId
            (roundState id st1 [0,0,0,0] 0)).rewards.getD 0 []).getD 0 0
          * (3/10) * (3/10) :=
  C3_blend_applies_ratio_twice cfg3 (3/10) id rngId st1 [0,0,0,0] 0 stepW 0 0 rfl
    (by decide) (by decide)

/-- C9: `step` fails exactly when the addressed walker has been destroyed:
given a size-4 action and an in-range agent id, the result is `none` if
and only if the walker's hull is gone; an alive walker's step always
succeeds. -/
theorem C9_step_fails_iff_destroyed (cfg : Config) (localRatio : ℚ)
    (physTick : World → World) (rng : ℚ → ℚ → ℚ) (s : EngineState) (action : List ℚ)
    (agentId : ℕ) (isLast : Bool) (hlen : action.length = 4)
    (hid : agentId < s.world.walkers.length) :
    MOMultiWalkerEnv_step cfg localRatio physTick rng s action agentId isLast = none
      ↔ (s.world.walkers.getD agentId default).hull = none := by
  unfold MOMultiWalkerEnv_step
  rw [if_pos hlen]
  cases hh : (s.world.walkers.getD agentId default).hull with
  | none => simp [hh]
  | some h => cases isLast <;> simp [hh]

/-- C9 witness: stepping the destroyed walker 0 of the `st8` state fails,
and the failure criterion is exactly its missing hull. -/
theorem C9_step_fails_iff_destroyed_witness :
    (MOMultiWalkerEnv_step cfg3 (3/10) id rngId st8 [0,0,0,0] 0 false = none
      ↔ (st8.world.walkers.getD 0 default).hull = none) :=
  C9_step_fails_iff_destroyed cfg3 (3/10) id rngId st8 [0,0,0,0] 0 false rfl (by decide)

/-- C10: a step with `is_last` false only buffers the action onto the
addressed walker: the resulting state is the input state with that single
walker's joints updated, and the frame counter, reward/done/observation
caches, scroll, shaping accumulator, package, game-over flag, fallen flags
and every walker's hull are unchanged. -/
theorem C10_mid_round_step_only_buffers (cfg : Config) (localRatio : ℚ)
    (physTick : World → World) (rng : ℚ → ℚ → ℚ) (s : EngineState) (action : List ℚ)
    (agentId : ℕ) (t : EngineState)
    (hstep : MOMultiWalkerEnv_step cfg localRatio physTick rng s action agentId false
      = some t) :
    t = { s with world := applyAction s.world agentId action }
    ∧ t.frames = s.frames ∧ t.lastRewards = s.lastRewards ∧ t.lastDones = s.lastDones
    ∧ t.lastObs = s.lastObs ∧ t.scroll = s.scroll
    ∧ t.prevPackageShaping = s.prevPackageShaping
    ∧ t.world.packageX = s.world.packageX ∧ t.world.gameOver = s.world.gameOver
    ∧ t.world.fallen = s.world.fallen
    ∧ (∀ j, (t.world.walkers.getD j default).hull
        = (s.world.walkers.getD j default).hull) := by
  have ht : t = { s with world := applyAction s.world agentId action } := by
    unfold MOMultiWalkerEnv_step at hstep
    split at hstep
    · split at hstep
      · exact absurd hstep (by simp)
      · simp only [Bool.false_eq_true, if_false] at hstep
        cases hstep
        rfl
    · exact absurd hstep (by simp)
  subst ht
  refine ⟨rfl, rfl, rfl, rfl, rfl, rfl, rfl, rfl, rfl, rfl, ?_⟩
  intro j
  dsimp only [applyAction]
  rw [getD_set]
  split
  · rename_i hcond
    rw [hcond.1]
  · rfl

/-- C10 witness: buffering an action for walker 0 of the clean state
leaves every cached and physical field untouched. -/
theorem C10_mid_round_step_only_buffers_witness :
    ({ st1 with world := applyAction st1.world 0 [0,0,0,0] } : EngineState)
      = { st1 with world := applyAction st1.world 0 [0,0,0,0] }
    ∧ ({ st1 with world := applyAction st1.world 0 [0,0,0,0] } : EngineState).frames
        = st1.frames
    ∧ ({ st1 with world := applyAction st1.world 0 [0,0,0,0] } : EngineState).lastRewards
        = st1.lastRewards
    ∧ ({ st1 with world := applyAction st1.world 0 [0,0,0,0] } : EngineState).lastDones
        = st1.lastDones
    ∧ ({ st1 with world := applyAction st1.world 0 [0,0,0,0] } : EngineState).lastObs
        = st1.lastObs
    ∧ ({ st1 with world := applyAction st1.world 0 [0,0,0,0] } : EngineState).scroll
        = st1.scroll
    ∧ ({ st1 with world := applyAction st1.world 0 [0,0,0,0] } :
        EngineState).prevPackageShaping = st1.prevPackageShaping
    ∧ ({ st1 with world := applyAction st1.world 0 [0,0,0,0] } :
        EngineState).world.packageX = st1.world.packageX
    ∧ ({ st1 with world := applyAction st1.world 0 [0,0,0,0] } :
        EngineState).world.gameOver = st1.world.gameOver
    ∧ ({ st1 with world := applyAction st1.world 0 [0,0,0,0] } :
        EngineState).world.fallen = st1.world.fallen
    ∧ (∀ j, ((({ st1 with world := applyAction st1.world 0 [0,0,0,0] } :
        EngineState).world.walkers.getD j default).hull)
        = ((st1.world.walkers.getD j default).hull)) :=
  C10_mid_round_step_only_buffers cfg3 (3/10) id rngId st1 [0,0,0,0] 0 _ rfl

/-- With `terminate_on_fall` set, the fallen-walker loop body touches only
the reward row of its own index. -/
lemma fallStep_row_other (cfg : Config) (fallen : List Bool) (acc : FallAcc) (j i : ℕ)
    (htof : cfg.terminateOnFall = true) (hne : i ≠ j) :
    (fallStep cfg fallen acc j).rewards.getD i [] = acc.rewards.getD i [] := by
  unfold fallStep
  split
  · dsimp only [setEntry]
    rw [getD_set, if_neg (fun hcon => hne hcon.1)]
  · rfl

/-- The fallen-walker loop step at index i replaces entry (i, 1) of the
reward matrix with the fall reward when walker i is flagged fallen. -/
lemma fallStep_row_self (cfg : Config) (fallen : List Bool) (acc : FallAcc) (i : ℕ)
    (htof : cfg.terminateOnFall = true) (hf : fallen.getD i false = true)
    (hlen : i < acc.rewards.length) :
    (fallStep cfg fallen acc i).rewards.getD i []
      = (acc.rewards.getD i []).set 1 cfg.fallReward := by
  unfold fallStep
  rw [if_pos hf]
  dsimp only
  rw [if_pos htof]
  dsimp only [setEntry]
  rw [getD_set, if_pos ⟨rfl, hlen⟩]

/-- Folding the fallen-walker loop over indices that avoid i leaves reward
row i unchanged (under `terminate_on_fall`). -/
lemma foldl_fallStep_row_not_mem (cfg : Config) (fallen : List Bool)
    (htof : cfg.terminateOnFall = true) (i : ℕ) :
    ∀ (js : List ℕ) (acc : FallAcc), i ∉ js →
      ((js.foldl (fallStep cfg fallen) acc).rewards.getD i []) = acc.rewards.getD i [] := by
  intro js
  induction js with
  | nil => intro acc _; rfl
  | cons j t ih =>
      intro acc hmem
      have hne : i ≠ j := by
        intro h
        exact hmem (by rw [h]; exact List.mem_cons_self _ _)
      have hnt : i ∉ t := fun h => hmem (List.mem_cons_of_mem _ h)
      rw [List.foldl_cons, ih _ hnt, fallStep_row_other cfg fallen acc j i htof hne]

/-- After the fallen-walker loop over `range m`, reward row i of a walker
flagged fallen (i < m) is its incoming row with entry 1 replaced by the
fall reward (under `terminate_on_fall`). -/
lemma fold_fall_entry (cfg : Config) (fallen : List Bool)
    (htof : cfg.terminateOnFall = true) (i : ℕ) (hf : fallen.getD i false = true) :
    ∀ (m : ℕ) (acc : FallAcc), i < m → i < acc.rewards.length →
      ((List.range m).foldl (fallStep cfg fallen) acc).rewards.getD i []
        = (acc.rewards.getD i []).set 1 cfg.fallReward := by
  intro m
  induction m with
  | zero => intro acc h _; omega
  | succ m ih =>
      intro acc him hlen
      rw [List.range_succ, List.foldl_append, List.foldl_cons, List.foldl_nil]
      rcases Nat.lt_succ_iff_lt_or_eq.mp him with hlt | heq
      · rw [fallStep_row_other cfg fallen _ m i htof (Nat.ne_of_lt hlt)]
        exact ih acc hlt hlen
      · subst heq
        have hpres := foldl_fallStep_row_not_mem cfg fallen htof i (List.range i) acc
          (by simp)
        have hlen2 : i < ((List.range i).foldl (fallStep cfg fallen) acc).rewards.length := by
          rw [foldl_fallStep_length]; exact hlen
        rw [fallStep_row_self cfg fallen _ i htof hf hlen2, hpres]

/-- Row i of the initial reward matrix (all-zero rows with the forward
delta written over row 0) has the three objective channels. -/
lemma initial_row_length (n i : ℕ) (v : ℚ) (hi : i < n) :
    ((setFullRow (List.replicate n (List.replicate 3 (0:ℚ))) 0 v).getD i []).length = 3 := by
  dsimp only [setFullRow]
  rw [getD_set]
  split
  · simp
  · rw [getD_replicate _ _ _ _ hi]; simp

/-- C8 counterexample: the claim says a destroyed walker never again
receives a non-zero channel-1 fall penalty.  In the `st8` state walker 0
is destroyed (hull `none`) yet its fallen flag is still asserted by the
substrate, and `scroll_subroutine` writes the fall reward -10 into its
channel-1 entry again. -/
theorem C8_destroyed_walker_penalized_again :
    (st8.world.walkers.getD 0 default).hull = none
    ∧ ((scrollSubroutine cfg3 rngId st8).rewards.getD 0 []).getD 1 0 = -10
    ∧ (-10 : ℚ) ≠ 0 := by
  refine ⟨rfl, ?_, by norm_num⟩
  norm_num [scrollSubroutine, walkerObs, neighborSlot, xposAt, fallStep, setFullRow,
    setEntry, st8, w8, st1, w1, cfg3, MOMultiWalkerEnv_init, MOMultiWalkerEnv_reset,
    aliveWalker, deadWalker, rngId, List.range_succ, List.replicate_succ, List.set,
    List.getD, TERRAIN_GRASS, TERRAIN_STEP, TERRAIN_LENGTH, SCALE]

/-- C8 amended: once a walker is destroyed its observation row is the
all-zero vector of the observation-space shape on every subsequent call of
`scroll_subroutine`; but the fall branch is keyed on the externally
supplied fallen flag, not on destruction, so in any round whose flag for
that walker is still set (here under `terminate_on_fall` and no package
failure, which keep other rows from overwriting it) its channel-1 entry is
again set to the fall reward — the penalty recurs rather than staying
zero. -/
theorem C8_destroyed_walker_obs_zero_penalty_by_flag (cfg : Config) (rng : ℚ → ℚ → ℚ)
    (s : EngineState) (i : ℕ) (hi : i < cfg.nWalkers)
    (hhull : (s.world.walkers.getD i default).hull = none) :
    (scrollSubroutine cfg rng s).obs.getD i [] = List.replicate s.obsDim 0
    ∧ (cfg.terminateOnFall = true → s.world.fallen.getD i false = true →
       i < s.world.fallen.length → i < s.world.walkers.length →
       s.world.gameOver = false → 0 ≤ s.world.packageX →
       ((scrollSubroutine cfg rng s).rewards.getD i []).getD 1 0 = cfg.fallReward) := by
  constructor
  · dsimp only [scrollSubroutine]
    rw [getD_map_range _ _ _ _ hi]
    dsimp only [walkerObs]
    rw [hhull]
  · intro htof hf hflen hwlen hgo hx
    have hcond : ¬(s.world.gameOver = true ∨ s.world.packageX < 0) := by
      rw [hgo]
      simp [not_lt.mpr hx]
    dsimp only [scrollSubroutine]
    rw [if_neg hcond]
    have hmin : i < min s.world.fallen.length s.world.walkers.length :=
      lt_min hflen hwlen
    have hlenacc : i < (setFullRow (List.replicate cfg.nWalkers (List.replicate 3 (0:ℚ))) 0
        (cfg.forwardReward * s.world.packageX - s.prevPackageShaping)).length := by
      simpa [setFullRow, List.length_set] using hi
    rw [fold_fall_entry cfg s.world.fallen htof i hf _ _ hmin hlenacc, getD_set,
      if_pos ⟨rfl, by rw [initial_row_length _ _ _ hi]; omega⟩]

/-- C8 witness: the amended statement evaluated on the `st8` state —
walker 0 is destroyed, its observation row is the 31 zeros of the
observation space, and because its fallen flag is still set its channel-1
entry is the fall reward again. -/
theorem C8_destroyed_walker_obs_zero_penalty_by_flag_witness :
    (scrollSubroutine cfg3 rngId st8).obs.getD 0 [] = List.replicate st8.obsDim 0
    ∧ ((scrollSubroutine cfg3 rngId st8).rewards.getD 0 []).getD 1 0 = cfg3.fallReward := by
  have h := C8_destroyed_walker_obs_zero_penalty_by_flag cfg3 rngId st8 0 (by decide) rfl
  refine ⟨h.1, h.2 rfl rfl (by decide) (by decide) rfl ?_⟩
  norm_num [st8, st1, w8, w1, MOMultiWalkerEnv_reset]

end Multiwalker
